import Mathlib

/-!
Shallow embedding of the kc-elections-api sources (src/main.rs, src/database.rs,
src/templates.rs) and proofs about the claims of its specification.

Modelling conventions:
* Rust `f64` values are modelled as `ℚ`; every float literal the program
  manipulates here is exactly representable, so no rounding is lost.
* Rust `i32`/`i64`/`u32` are modelled as `Int`/`Nat`; no arithmetic in the
  verified paths can overflow a 64-bit range on the inputs considered.
* `serde_json` values are modelled by the `Json` AST below; the textual
  printing/parsing layer of `serde_json` (which is value-preserving) is
  abstracted away, so "serialize to a string" is modelled as producing the
  `Json` tree and "parse the string" as consuming it.
* Asynchronous effects (Redis calls, HTTP fetch, Postgres queries) are
  modelled by passing the outcome of each external interaction as an
  explicit argument, keeping every function pure and executable.
-/

deriving instance DecidableEq for Except

/-- JSON value AST, standing in for `serde_json::Value`.  Integral and
non-integral numbers are kept distinct, mirroring `serde_json`'s internal
number representation. -/
inductive Json where
  | null : Json
  | bool (b : Bool) : Json
  | int (n : Int) : Json
  | num (q : ℚ) : Json
  | str (s : String) : Json
  | arr (xs : List Json) : Json
  | obj (fields : List (String × Json)) : Json

/-- Wrapper for floats that may arrive as quoted strings
(`struct QuotedFloat(f64)` in src/main.rs). -/
structure QuotedFloat where
  val : ℚ
deriving DecidableEq

/-- The characters trimmed by `s.trim_matches(|c| c == '"' || c == ' ')`
in `QuotedFloat::deserialize` (src/main.rs lines 41-46): double quotes and
spaces, repeatedly, from both ends. -/
def trimQuotesSpaces (cs : List Char) : List Char :=
  ((cs.dropWhile fun c => c == '"' || c == ' ').reverse.dropWhile
    fun c => c == '"' || c == ' ').reverse

/-- Numeric value of a digit string, most significant first. -/
def digitsVal (cs : List Char) : Nat :=
  cs.foldl (fun n c => 10 * n + (c.toNat - 48)) 0

/-- `true` iff every character is an ASCII digit. -/
def allDigits (cs : List Char) : Bool :=
  cs.all fun c => c.isDigit

/-- Unsigned part of the decimal-literal fragment of Rust's
`f64::from_str` (an external standard-library function): digits, an
optional dot, digits, at least one digit in total.  Exponents and the
special values are outside the fragment the program's data exercises. -/
def parseDecimalBody (body : List Char) : Option ℚ :=
  let ip := body.takeWhile fun c => !(c == '.')
  let rest := body.dropWhile fun c => !(c == '.')
  match rest with
  | [] => if !ip.isEmpty && allDigits ip then some ((digitsVal ip : ℚ)) else none
  | _ :: fp =>
    if (!ip.isEmpty || !fp.isEmpty) && allDigits ip && allDigits fp then
      some ((digitsVal ip : ℚ) + (digitsVal fp : ℚ) / ((10 : ℚ) ^ fp.length))
    else none

/-- Model of `f64::from_str` on plain decimal literals with an optional
leading sign. -/
def parseDecimal (cs : List Char) : Option ℚ :=
  match cs with
  | '-' :: body => (parseDecimalBody body).map fun q => -q
  | '+' :: body => parseDecimalBody body
  | body => parseDecimalBody body

/-- The `#[serde(untagged)] enum StringOrFloat` used inside
`QuotedFloat::deserialize` (src/main.rs lines 32-37): a JSON string takes
the `String` variant, a JSON number the `Float` variant. -/
inductive StringOrFloat where
  | strv (s : String) : StringOrFloat
  | floatv (q : ℚ) : StringOrFloat

/-- Untagged deserialization of `StringOrFloat`: try the `String` variant,
then the `Float` variant (an integral JSON number is accepted by the `f64`
visitor). -/
def StringOrFloat.fromJson : Json → Except String StringOrFloat
  | Json.str s => Except.ok (StringOrFloat.strv s)
  | Json.num q => Except.ok (StringOrFloat.floatv q)
  | Json.int n => Except.ok (StringOrFloat.floatv (n : ℚ))
  | _ => Except.error "data did not match any variant of untagged enum StringOrFloat"

/-- `QuotedFloat::deserialize` (src/main.rs lines 26-50): a string is
trimmed of quote and space characters and parsed as a float; a number is
taken as-is. -/
def QuotedFloat.deserialize (j : Json) : Except String QuotedFloat :=
  match StringOrFloat.fromJson j with
  | Except.error e => Except.error e
  | Except.ok (StringOrFloat.strv s) =>
    match parseDecimal (trimQuotesSpaces s.data) with
    | some q => Except.ok ⟨q⟩
    | none => Except.error "invalid float literal"
  | Except.ok (StringOrFloat.floatv q) => Except.ok ⟨q⟩

/-- `QuotedFloat::serialize` (src/main.rs lines 52-59): serialize the
inner float directly. -/
def QuotedFloat.serialize (q : QuotedFloat) : Json :=
  Json.num q.val

/-- One flat CSV record (`struct ElectionData`, src/main.rs lines 61-91). -/
structure ElectionData where
  gems_contest_id : Int
  contest_sort_seq : Int
  district_type : String
  district_type_subheading : String
  district_name : String
  ballot_title : String
  ballots_counted_for_district : Int
  registered_voters_for_district : Int
  percent_turnout_for_district : QuotedFloat
  candidate_sort_seq : Int
  ballot_response : String
  party_preference : Option String
  votes : Int
  percent_of_votes : QuotedFloat
deriving DecidableEq

/-- Serialization of the optional `Party Preference` field: `None` becomes
JSON null, `Some s` the string. -/
def optStrToJson : Option String → Json
  | none => Json.null
  | some s => Json.str s

/-- Derived `Serialize` for `ElectionData`: a JSON object keyed by the
`#[serde(rename = ...)]` names of src/main.rs lines 61-91. -/
def ElectionData.toJson (r : ElectionData) : Json :=
  Json.obj
    [("GEMS Contest ID", Json.int r.gems_contest_id),
     ("Contest Sort Seq", Json.int r.contest_sort_seq),
     ("District Type", Json.str r.district_type),
     ("District Type Subheading", Json.str r.district_type_subheading),
     ("District Name", Json.str r.district_name),
     ("Ballot Title", Json.str r.ballot_title),
     ("Ballots Counted for District", Json.int r.ballots_counted_for_district),
     ("Registered Voters for District", Json.int r.registered_voters_for_district),
     ("Percent Turnout for District", QuotedFloat.serialize r.percent_turnout_for_district),
     ("Candidate Sort Seq", Json.int r.candidate_sort_seq),
     ("Ballot Response", Json.str r.ballot_response),
     ("Party Preference", optStrToJson r.party_preference),
     ("Votes", Json.int r.votes),
     ("Percent of Votes", QuotedFloat.serialize r.percent_of_votes)]

/-- Field lookup in a JSON object, first match wins. -/
def jsonField : List (String × Json) → String → Except String Json
  | [], k => Except.error k
  | (k2, v) :: rest, k => if k2 == k then Except.ok v else jsonField rest k

/-- Deserialize an integer field. -/
def asInt : Json → Except String Int
  | Json.int n => Except.ok n
  | _ => Except.error "expected an integer"

/-- Deserialize a string field. -/
def asStr : Json → Except String String
  | Json.str s => Except.ok s
  | _ => Except.error "expected a string"

/-- Deserialize an `Option<String>` field: null is `None`, a string is
`Some`. -/
def asOptStr : Json → Except String (Option String)
  | Json.null => Except.ok none
  | Json.str s => Except.ok (some s)
  | _ => Except.error "expected a string or null"

/-- Derived `Deserialize` for `ElectionData`: field-by-field lookup under
the serde rename keys. -/
def ElectionData.fromJson : Json → Except String ElectionData
  | Json.obj fs => do
    let gems ← asInt (← jsonField fs "GEMS Contest ID")
    let seq ← asInt (← jsonField fs "Contest Sort Seq")
    let dty ← asStr (← jsonField fs "District Type")
    let dsub ← asStr (← jsonField fs "District Type Subheading")
    let dname ← asStr (← jsonField fs "District Name")
    let btitle ← asStr (← jsonField fs "Ballot Title")
    let bc ← asInt (← jsonField fs "Ballots Counted for District")
    let rv ← asInt (← jsonField fs "Registered Voters for District")
    let pt ← QuotedFloat.deserialize (← jsonField fs "Percent Turnout for District")
    let cseq ← asInt (← jsonField fs "Candidate Sort Seq")
    let bresp ← asStr (← jsonField fs "Ballot Response")
    let pp ← asOptStr (← jsonField fs "Party Preference")
    let vt ← asInt (← jsonField fs "Votes")
    let pv ← QuotedFloat.deserialize (← jsonField fs "Percent of Votes")
    Except.ok
      { gems_contest_id := gems, contest_sort_seq := seq, district_type := dty,
        district_type_subheading := dsub, district_name := dname, ballot_title := btitle,
        ballots_counted_for_district := bc, registered_voters_for_district := rv,
        percent_turnout_for_district := pt, candidate_sort_seq := cseq,
        ballot_response := bresp, party_preference := pp, votes := vt,
        percent_of_votes := pv }
  | _ => Except.error "expected an object"

/-- `serde_json::to_string(&Vec<ElectionData>)`: a JSON array of the
serialized records. -/
def electionListToJson (l : List ElectionData) : Json :=
  Json.arr (l.map ElectionData.toJson)

/-- Element-wise fail-fast deserialization of a JSON array of records. -/
def fromJsonArray : List Json → Except String (List ElectionData)
  | [] => Except.ok []
  | j :: js =>
    match ElectionData.fromJson j with
    | Except.error e => Except.error e
    | Except.ok r =>
      match fromJsonArray js with
      | Except.error e => Except.error e
      | Except.ok rs => Except.ok (r :: rs)

/-- `serde_json::from_str::<Vec<ElectionData>>`. -/
def electionListFromJson : Json → Except String (List ElectionData)
  | Json.arr xs => fromJsonArray xs
  | _ => Except.error "expected an array"

/-- `fetch_and_parse_csv` (src/main.rs lines 93-106) modelled over the
row-wise outcomes produced by the csv reader's `deserialize()` iterator:
each row either parsed into an `ElectionData` or failed with an error, and
the loop `let record: ElectionData = result?;` aborts the whole batch at
the first failing row. -/
def fetch_and_parse_csv (rows : List (Except String ElectionData)) :
    Except String (List ElectionData) :=
  match rows with
  | [] => Except.ok []
  | r :: rest =>
    match r with
    | Except.error e => Except.error e
    | Except.ok x =>
      match fetch_and_parse_csv rest with
      | Except.error e => Except.error e
      | Except.ok l => Except.ok (x :: l)

/-- Outcome of one Redis interaction that failed. -/
inductive CacheErr where
  | down : CacheErr
deriving DecidableEq

/-- The `actix_web::Error` values produced by `get_all_data`
(src/main.rs lines 108-156), one per `map_err` site. -/
inductive ApiErr where
  | redisGet : ApiErr
  | cacheParse : ApiErr
  | csvFetch : ApiErr
  | redisSet : ApiErr
deriving DecidableEq

/-- `CACHE_EXPIRATION` (src/main.rs line 16): the TTL, in seconds, passed
to SETEX. -/
def CACHE_EXPIRATION : Nat := 5

/-- `get_all_data` (src/main.rs lines 108-156).  Arguments model the
external interactions in program order: the outcome of the Redis GET on
`CACHE_KEY` (an error, a cached payload, or nothing), the row outcomes the
CSV fetch would yield, and the outcome of the Redis SETEX.  The result
carries the returned records together with the cache-write effect
(TTL and payload) performed on the miss path. -/
def get_all_data (cacheGet : Except CacheErr (Option Json))
    (csvRows : List (Except String ElectionData))
    (setex : Except CacheErr Unit) :
    Except ApiErr (List ElectionData × Option (Nat × Json)) :=
  match cacheGet with
  | Except.error _ => Except.error ApiErr.redisGet
  | Except.ok (some payload) =>
    match electionListFromJson payload with
    | Except.ok l => Except.ok (l, none)
    | Except.error _ => Except.error ApiErr.cacheParse
  | Except.ok none =>
    match fetch_and_parse_csv csvRows with
    | Except.error _ => Except.error ApiErr.csvFetch
    | Except.ok parsed =>
      match setex with
      | Except.error _ => Except.error ApiErr.redisSet
      | Except.ok () => Except.ok (parsed, some (CACHE_EXPIRATION, electionListToJson parsed))

/-- A concrete parsed record used by witnesses and counterexamples. -/
def sampleRecord : ElectionData :=
  { gems_contest_id := 100, contest_sort_seq := 1, district_type := "City",
    district_type_subheading := "City of Seattle", district_name := "Seattle",
    ballot_title := "Mayor", ballots_counted_for_district := 1000,
    registered_voters_for_district := 2000,
    percent_turnout_for_district := ⟨50⟩, candidate_sort_seq := 1,
    ballot_response := "Alice", party_preference := some "Prefers Democratic Party",
    votes := 600, percent_of_votes := ⟨60⟩ }

/-- Records returned to the caller by a `get_all_data` outcome, forgetting
the cache-write effect. -/
def resultRecords (r : Except ApiErr (List ElectionData × Option (Nat × Json))) :
    Option (List ElectionData) :=
  match r with
  | Except.ok p => some p.1
  | Except.error _ => none

/-- Party of a candidate (`enum PartyPreference`, declared in the crate
root alongside `Contest`/`District`/`Candidate`; the variant names are
pinned by the spec and by `format!("{:?}", ...)` strings written by
src/database.rs line 107). -/
inductive PartyPreference where
  | Democrat : PartyPreference
  | Republican : PartyPreference
  | NotAffiliated : PartyPreference
deriving DecidableEq

/-- `format!("{:?}", candidate.party_preference)` on the derived `Debug`
representation (src/database.rs line 107). -/
def PartyPreference.debugFormat : PartyPreference → String
  | PartyPreference.Democrat => "Democrat"
  | PartyPreference.Republican => "Republican"
  | PartyPreference.NotAffiliated => "NotAffiliated"

/-- Lower-cased character content of a string. -/
def lowerChars (s : String) : List Char :=
  s.data.map Char.toLower

/-- `true` iff `needle` occurs as a contiguous run inside `hay`. -/
def containsSub (needle : List Char) : List Char → Bool
  | [] => needle.isEmpty
  | c :: rest => List.isPrefixOf needle (c :: rest) || containsSub needle rest

/-- Modelled from the spec: `PartyPreference::from_str` is declared in the
crate root, which is not among the provided source files (src/database.rs
only calls it).  Per spec section 3 it is "derived by case-insensitive
substring match over free-text source input": text containing the
Democratic marker classifies as Democrat, text containing the Republican
marker as Republican, and anything else fails to parse. -/
def PartyPreference.from_str (s : String) : Option PartyPreference :=
  if containsSub "democrat".data (lowerChars s) then some PartyPreference.Democrat
  else if containsSub "republican".data (lowerChars s) then some PartyPreference.Republican
  else none

/-- `PartyPreference::from_str(&text).unwrap_or(PartyPreference::NotAffiliated)`,
the normalization applied by both read paths (src/database.rs lines
179-180 and 252-253). -/
def parsePartyText (s : String) : PartyPreference :=
  (PartyPreference.from_str s).getD PartyPreference.NotAffiliated

/-- `struct District` (crate root; its fields are pinned by the reads and
writes in src/database.rs lines 90-93 and 165-172). -/
structure District where
  name : String
  percent_turnout : ℚ
  registered_voters : Int
  ballots_counted : Int
  district_type : String
  district_type_subheading : String
deriving DecidableEq

/-- `struct Candidate` (crate root; fields pinned by src/database.rs lines
102-108 and 173-182). -/
structure Candidate where
  name : String
  percentage : ℚ
  votes : Int
  party_preference : PartyPreference
deriving DecidableEq

/-- `struct Contest` (crate root; fields pinned by src/database.rs lines
88-109 and 162-183; `id` is the externally-assigned natural contest id,
`u32` in the source). -/
structure Contest where
  id : Nat
  ballot_title : String
  district : District
  candidates : List Candidate
deriving DecidableEq

/-- A row of the `updates` table (src/database.rs lines 32-36). -/
structure UpdateRow where
  id : Int
  timestamp : Int
  total_votes : Int
deriving DecidableEq

/-- A row of the `districts` table (src/database.rs lines 38-47). -/
structure DistrictRow where
  id : Int
  name : String
  percent_turnout : ℚ
  registered_voters : Int
  ballots_counted : Int
  district_type : String
  district_type_subheading : String
  update_id : Int
deriving DecidableEq

/-- A row of the `contests` table (src/database.rs lines 49-54). -/
structure ContestRow where
  id : Int
  ballot_title : String
  district_id : Int
  update_id : Int
deriving DecidableEq

/-- A row of the `candidates` table (src/database.rs lines 56-64). -/
structure CandidateRow where
  id : Int
  name : String
  percentage : ℚ
  votes : Int
  party_preference : String
  contest_id : Int
  update_id : Int
deriving DecidableEq

/-- The visible state of the Postgres database: the four tables created by
`create_tables`, plus the next value of each SERIAL id sequence. -/
structure DbState where
  updates : List UpdateRow
  districts : List DistrictRow
  contests : List ContestRow
  candidates : List CandidateRow
  nextUpdateId : Int
  nextDistrictId : Int
  nextCandidateId : Int
deriving DecidableEq

/-- Storage-layer errors (`tokio_postgres::Error`): a faulted operation,
or `query_one` finding a row count different from one. -/
inductive DbErr where
  | fault : DbErr
  | rowCount : DbErr
deriving DecidableEq

/-- `INSERT INTO updates (timestamp, total_votes) VALUES (NOW(), $1)
RETURNING id` applied to a state; `NOW()` is the `now` argument. -/
def insertUpdateRow (db : DbState) (now : Int) (total_votes : Int) : DbState × Int :=
  ({ db with updates := db.updates ++ [⟨db.nextUpdateId, now, total_votes⟩],
             nextUpdateId := db.nextUpdateId + 1 }, db.nextUpdateId)

/-- `INSERT INTO districts ... RETURNING id` (src/database.rs lines 89-94). -/
def insertDistrictRow (db : DbState) (d : District) (uid : Int) : DbState × Int :=
  ({ db with districts := db.districts ++
      [⟨db.nextDistrictId, d.name, d.percent_turnout, d.registered_voters,
        d.ballots_counted, d.district_type, d.district_type_subheading, uid⟩],
             nextDistrictId := db.nextDistrictId + 1 }, db.nextDistrictId)

/-- `INSERT INTO contests (id, ballot_title, district_id, update_id)`
(src/database.rs lines 97-100); the contest's natural id is cast to i32. -/
def insertContestRow (db : DbState) (c : Contest) (did : Int) (uid : Int) : DbState :=
  { db with contests := db.contests ++ [⟨(c.id : Int), c.ballot_title, did, uid⟩] }

/-- `INSERT INTO candidates ...` (src/database.rs lines 103-108); the
party is stored as its `Debug` string. -/
def insertCandidateRow (db : DbState) (cand : Candidate) (cid : Int) (uid : Int) :
    DbState × Int :=
  ({ db with candidates := db.candidates ++
      [⟨db.nextCandidateId, cand.name, cand.percentage, cand.votes,
        cand.party_preference.debugFormat, cid, uid⟩],
             nextCandidateId := db.nextCandidateId + 1 }, db.nextCandidateId)

/-- The candidate-insert loop of `log_update` (src/database.rs lines
102-109), run inside the transaction on the pending state.  `oracle k`
says whether the k-th storage operation of the call faults; each faulting
insert aborts the transaction through `?`. -/
def insertCandidates (oracle : Nat → Bool) :
    Nat → DbState → List Candidate → Int → Int → Except DbErr (DbState × Nat)
  | k, pending, [], _, _ => Except.ok (pending, k)
  | k, pending, cand :: rest, cid, uid =>
    if oracle k then Except.error DbErr.fault
    else insertCandidates oracle (k + 1) (insertCandidateRow pending cand cid uid).1 rest cid uid

/-- The per-contest insert loop of `log_update` (src/database.rs lines
88-110): district insert, contest insert, then the candidate loop. -/
def insertContests (oracle : Nat → Bool) :
    Nat → DbState → List Contest → Int → Except DbErr (DbState × Nat)
  | k, pending, [], _ => Except.ok (pending, k)
  | k, pending, c :: rest, uid =>
    if oracle k then Except.error DbErr.fault
    else if oracle (k + 1) then Except.error DbErr.fault
    else
      match insertCandidates oracle (k + 2)
          (insertContestRow (insertDistrictRow pending c.district uid).1 c
            (insertDistrictRow pending c.district uid).2 uid)
          c.candidates ((c.id : Int)) uid with
      | Except.error e => Except.error e
      | Except.ok pk => insertContests oracle pk.2 pk.1 rest uid

/-- `log_update` (src/database.rs lines 70-114).  All inserts run inside
one transaction on a pending copy of the state; the pending state becomes
visible only at `transaction.commit()`.  Any faulted operation (BEGIN,
any insert, or COMMIT — indices drawn from `oracle`) makes the `?` return
early, dropping the transaction, which rolls it back: the visible state
stays the pre-call state.  Returns the visible state and the call's
outcome. -/
def log_update (oracle : Nat → Bool) (now : Int) (db : DbState)
    (contests : List Contest) (total_votes : Int) : DbState × Except DbErr Unit :=
  if oracle 0 then (db, Except.error DbErr.fault)
  else if oracle 1 then (db, Except.error DbErr.fault)
  else
    match insertContests oracle 2 (insertUpdateRow db now total_votes).1 contests
        (insertUpdateRow db now total_votes).2 with
    | Except.error e => (db, Except.error e)
    | Except.ok pk =>
      if oracle pk.2 then (db, Except.error DbErr.fault)
      else (pk.1, Except.ok ())

/-- Fault-free candidate inserts: the same rows `insertCandidates` adds
when no operation faults. -/
def applyCandidateRows : DbState → List Candidate → Int → Int → DbState
  | pending, [], _, _ => pending
  | pending, cand :: rest, cid, uid =>
    applyCandidateRows (insertCandidateRow pending cand cid uid).1 rest cid uid

/-- Fault-free per-contest inserts. -/
def applyContestRows : DbState → List Contest → Int → DbState
  | pending, [], _ => pending
  | pending, c :: rest, uid =>
    applyContestRows
      (applyCandidateRows
        (insertContestRow (insertDistrictRow pending c.district uid).1 c
          (insertDistrictRow pending c.district uid).2 uid)
        c.candidates ((c.id : Int)) uid)
      rest uid

/-- The complete state a successful `log_update` commits: the snapshot row
plus every district, contest and candidate row of the input tree. -/
def applyTree (db : DbState) (now : Int) (cs : List Contest) (tv : Int) : DbState :=
  applyContestRows (insertUpdateRow db now tv).1 cs (insertUpdateRow db now tv).2

/-- `ORDER BY timestamp DESC LIMIT 1`: the first row carrying the maximal
timestamp, if any. -/
def maxTimestampRow (rows : List UpdateRow) : Option UpdateRow :=
  rows.foldl
    (fun acc r =>
      match acc with
      | none => some r
      | some m => if m.timestamp < r.timestamp then some r else some m)
    none

/-- `tokio_postgres`' `query_one`: succeeds only when the row set has
exactly one row, otherwise reports an unexpected row count. -/
def query_one {α : Type} (rows : List α) : Except DbErr α :=
  match rows with
  | [r] => Except.ok r
  | _ => Except.error DbErr.rowCount

/-- The contests/districts join plus the per-contest candidates query
shared by `get_latest_data` and `get_data_at_timestamp` (src/database.rs
lines 138-188 and 211-261), for a given snapshot id. -/
def joinContests (db : DbState) (uid : Int) : List Contest :=
  (db.contests.filter fun c => c.update_id == uid).filterMap fun c =>
    (db.districts.find? fun d => d.id == c.district_id).map fun d =>
      { id := c.id.toNat
        ballot_title := c.ballot_title
        district :=
          { name := d.name, percent_turnout := d.percent_turnout,
            registered_voters := d.registered_voters,
            ballots_counted := d.ballots_counted, district_type := d.district_type,
            district_type_subheading := d.district_type_subheading }
        candidates :=
          (db.candidates.filter fun k => k.contest_id == c.id && k.update_id == uid).map
            fun k =>
              { name := k.name, percentage := k.percentage, votes := k.votes,
                party_preference := parsePartyText k.party_preference } }

/-- `get_latest_data` (src/database.rs lines 128-189): `query_one` over
`SELECT id FROM updates ORDER BY timestamp DESC LIMIT 1`, then the join. -/
def get_latest_data (db : DbState) : Except DbErr (List Contest) :=
  match query_one (maxTimestampRow db.updates).toList with
  | Except.error e => Except.error e
  | Except.ok u => Except.ok (joinContests db u.id)

/-- `get_latest_total_votes` (src/database.rs lines 116-126): `query_opt`,
so an empty store yields `none` rather than an error. -/
def get_latest_total_votes (db : DbState) : Except DbErr (Option Int) :=
  Except.ok ((maxTimestampRow db.updates).map fun u => u.total_votes)

/-- `get_data_at_timestamp` (src/database.rs lines 199-262): `query_one`
over `SELECT id FROM updates WHERE timestamp = $1`, then the join. -/
def get_data_at_timestamp (db : DbState) (t : Int) : Except DbErr (List Contest) :=
  match query_one (db.updates.filter fun r => r.timestamp == t) with
  | Except.error e => Except.error e
  | Except.ok u => Except.ok (joinContests db u.id)

/-- The store with no snapshot at all (freshly created tables). -/
def emptyDb : DbState :=
  { updates := [], districts := [], contests := [], candidates := [],
    nextUpdateId := 1, nextDistrictId := 1, nextCandidateId := 1 }

/-- A store holding exactly one (bare) snapshot written at timestamp 5. -/
def oneUpdateDb : DbState :=
  { updates := [⟨1, 5, 100⟩], districts := [], contests := [], candidates := [],
    nextUpdateId := 2, nextDistrictId := 1, nextCandidateId := 1 }

/-- The comparator of src/main.rs lines 358-363:
`b.percent_of_votes.0.partial_cmp(&a.percent_of_votes.0).unwrap_or(Equal)`.
On the rational model the comparison is total, so the predicate says
"`a` sorts no later than `b`" in descending percent order. -/
def votesDescLe (a b : ElectionData) : Bool :=
  decide (b.percent_of_votes.val ≤ a.percent_of_votes.val)

/-- Stable insertion step for `sort_by` with the descending comparator. -/
def insertByVotes (x : ElectionData) : List ElectionData → List ElectionData
  | [] => [x]
  | y :: ys => if votesDescLe x y then x :: y :: ys else y :: insertByVotes x ys

/-- `contest_data.sort_by(...)` (src/main.rs lines 358-363), modelled as a
stable insertion sort with the same comparator: a permutation arranged in
descending `percent_of_votes` order. -/
def sortByVotesDesc : List ElectionData → List ElectionData
  | [] => []
  | x :: xs => insertByVotes x (sortByVotesDesc xs)

/-- What `templates::contest_details` renders. -/
structure ContestMarkup where
  ballot_title : String
  district_name : String
  ballots_counted : Int
  registered_voters : Int
  percent_turnout : ℚ
  resultRows : List (String × Option String × Int × ℚ)
deriving DecidableEq

/-- `templates::contest_details` (src/templates.rs lines 73-95): reads
`contest_data[0]` unchecked — modelled through `head?`, where `none`
stands for the out-of-bounds panic — and lists every record's response,
party, votes and percentage. -/
def contest_details (contest_data : List ElectionData) : Option ContestMarkup :=
  match contest_data.head? with
  | none => none
  | some h =>
    some
      { ballot_title := h.ballot_title
        district_name := h.district_name
        ballots_counted := h.ballots_counted_for_district
        registered_voters := h.registered_voters_for_district
        percent_turnout := h.percent_turnout_for_district.val
        resultRows := contest_data.map fun it =>
          (it.ballot_response, it.party_preference, it.votes, it.percent_of_votes.val) }

/-- The responses `get_contest_data_html` can produce; `indexPanic` marks
the (unreachable) out-of-bounds read inside `contest_details`. -/
inductive HtmlResponse where
  | noData : HtmlResponse
  | htmlPage (m : ContestMarkup) : HtmlResponse
  | indexPanic : HtmlResponse
  | serverError : HtmlResponse
deriving DecidableEq

/-- `get_contest_data_html` (src/main.rs lines 342-371): on data, filter
to the requested contest id; an empty filter result returns the
"No data available for this contest." body; otherwise sort descending by
percent of votes and render `contest_details`. -/
def get_contest_data_html (allRes : Except ApiErr (List ElectionData))
    (contest_id : Int) : HtmlResponse :=
  match allRes with
  | Except.error _ => HtmlResponse.serverError
  | Except.ok all_data =>
    let contest_data := all_data.filter fun r => r.gems_contest_id == contest_id
    if contest_data.isEmpty then HtmlResponse.noData
    else
      match contest_details (sortByVotesDesc contest_data) with
      | some m => HtmlResponse.htmlPage m
      | none => HtmlResponse.indexPanic

/-- Round trip of a single record through the derived serde
implementations. -/
theorem electionData_round_trip (r : ElectionData) :
    ElectionData.fromJson (ElectionData.toJson r) = Except.ok r := by
  obtain ⟨a, b, c, d, e, f, g, h, ⟨i⟩, j, k, pp, m, ⟨n⟩⟩ := r
  cases pp <;> rfl

/-- Round trip of a record list through the array encodings. -/
theorem electionList_round_trip (l : List ElectionData) :
    electionListFromJson (electionListToJson l) = Except.ok l := by
  induction l with
  | nil => rfl
  | cons x xs ih =>
    simp only [electionListToJson, List.map_cons, electionListFromJson, fromJsonArray,
      electionData_round_trip]
    simp only [electionListToJson, electionListFromJson] at ih
    rw [ih]

/-- Any string whose trimmed character content is `42.5` deserializes to
the rational 42.5. -/
theorem deserializeTrimmed (s : String)
    (h : trimQuotesSpaces s.data = ['4', '2', '.', '5']) :
    QuotedFloat.deserialize (Json.str s) = Except.ok ⟨85 / 2⟩ := by
  have h2 : parseDecimal ['4', '2', '.', '5'] =
      some ((digitsVal ['4', '2'] : ℚ) +
        (digitsVal ['5'] : ℚ) / (10 : ℚ) ^ (['5'].length)) := rfl
  have e1 : digitsVal ['4', '2'] = 42 := rfl
  have e2 : digitsVal ['5'] = 5 := rfl
  have h3 : ((digitsVal ['4', '2'] : ℚ) +
      (digitsVal ['5'] : ℚ) / (10 : ℚ) ^ (['5'].length)) = 85 / 2 := by
    rw [e1, e2]
    norm_num
  show (match parseDecimal (trimQuotesSpaces s.data) with
        | some q => Except.ok (⟨q⟩ : QuotedFloat)
        | none => Except.error "invalid float literal") = Except.ok ⟨85 / 2⟩
  rw [h, h2, h3]

/-- Claim C6: deserializing a turnout or percentage field yields 42.5 for
the quoted string `"42.5"`, the plain number `42.5`, and the
space-padded string `" 42.5 "` (and also for a string carrying literal
quote characters); in general a numeric input is taken as-is. -/
theorem quoted_float_coercion :
    QuotedFloat.deserialize (Json.str "42.5") = Except.ok ⟨85 / 2⟩ ∧
    QuotedFloat.deserialize (Json.num (85 / 2)) = Except.ok ⟨85 / 2⟩ ∧
    QuotedFloat.deserialize (Json.str " 42.5 ") = Except.ok ⟨85 / 2⟩ ∧
    QuotedFloat.deserialize (Json.str "\"42.5\"") = Except.ok ⟨85 / 2⟩ ∧
    (∀ q : ℚ, QuotedFloat.deserialize (Json.num q) = Except.ok ⟨q⟩) :=
  ⟨deserializeTrimmed "42.5" rfl, rfl, deserializeTrimmed " 42.5 " rfl,
   deserializeTrimmed "\"42.5\"" rfl, fun _ => rfl⟩

/-- Claim C9: serialize-then-deserialize is the identity on record lists —
in particular on every `QuotedFloat` — so a cache hit on a payload written
by an earlier miss returns exactly the list that was cached. -/
theorem cache_round_trip (l : List ElectionData)
    (csvRows : List (Except String ElectionData)) (setex : Except CacheErr Unit) :
    electionListFromJson (electionListToJson l) = Except.ok l ∧
    (∀ q : QuotedFloat, QuotedFloat.deserialize (QuotedFloat.serialize q) = Except.ok q) ∧
    get_all_data (Except.ok (some (electionListToJson l))) csvRows setex =
      Except.ok (l, none) := by
  refine ⟨electionList_round_trip l, fun _ => rfl, ?_⟩
  simp only [get_all_data, electionList_round_trip l]

/-- Claim C1 (counterexample): on a cache miss the result of
`get_all_data` varies with the upstream CSV rows while every other input
is held fixed — and no snapshot-store state is consulted at all — so the
Snapshot Store's `latest()` is not the fallback source on a miss; the CSV
fetch is. -/
theorem get_all_data_miss_not_from_store :
    get_all_data (Except.ok none) [Except.ok sampleRecord] (Except.ok ()) ≠
      get_all_data (Except.ok none) [] (Except.ok ()) := by
  intro h
  exact absurd (congrArg resultRecords h) (by decide)

/-- Claim C1 (amended): on a `get_all_data` call that finds no cached
entry, the layer obtains the result by calling `fetch_and_parse_csv` (the
upstream CSV source — not the Snapshot Store), serializes it, stores it
with the fresh TTL `CACHE_EXPIRATION`, and returns it. -/
theorem get_all_data_miss_uses_csv (csvRows : List (Except String ElectionData))
    (l : List ElectionData) (h : fetch_and_parse_csv csvRows = Except.ok l) :
    get_all_data (Except.ok none) csvRows (Except.ok ()) =
      Except.ok (l, some (CACHE_EXPIRATION, electionListToJson l)) := by
  simp only [get_all_data, h]

/-- Witness for the amended claim C1 at a concrete one-row fetch. -/
theorem get_all_data_miss_uses_csv_witness :
    get_all_data (Except.ok none) [Except.ok sampleRecord] (Except.ok ()) =
      Except.ok ([sampleRecord],
        some (CACHE_EXPIRATION, electionListToJson [sampleRecord])) :=
  get_all_data_miss_uses_csv [Except.ok sampleRecord] [sampleRecord] rfl

/-- Claim C2 (counterexample): with the same upstream data available, a
cache-backend error makes `get_all_data` fail the request with the Redis
error, while a genuine cache miss succeeds with the fetched records — the
error path does not behave like a miss. -/
theorem get_all_data_cache_error_counterexample :
    get_all_data (Except.error CacheErr.down) [Except.ok sampleRecord] (Except.ok ()) =
      Except.error ApiErr.redisGet ∧
    get_all_data (Except.ok none) [Except.ok sampleRecord] (Except.ok ()) =
      Except.ok ([sampleRecord],
        some (CACHE_EXPIRATION, electionListToJson [sampleRecord])) :=
  ⟨rfl, rfl⟩

/-- Claim C2 (amended): whenever the cache backend's GET fails,
`get_all_data` returns the internal-server error mapped from the Redis
error — it never falls through to the source of truth, whatever the
upstream and SETEX outcomes would have been. -/
theorem get_all_data_cache_error_fails (e : CacheErr)
    (csvRows : List (Except String ElectionData)) (setex : Except CacheErr Unit) :
    get_all_data (Except.error e) csvRows setex = Except.error ApiErr.redisGet := rfl

/-- Claim C8: ingestion parsing is fail-fast over the whole batch — any
failing row makes `fetch_and_parse_csv` return an error (no records at
all), and if every row parses it returns all records in input order. -/
theorem fetch_and_parse_csv_fail_fast (rows : List (Except String ElectionData)) :
    ((∃ e, Except.error e ∈ rows) → ∃ e, fetch_and_parse_csv rows = Except.error e) ∧
    (∀ l, rows = l.map Except.ok → fetch_and_parse_csv rows = Except.ok l) := by
  induction rows with
  | nil =>
    constructor
    · rintro ⟨e, he⟩
      simp at he
    · intro l hl
      cases l with
      | nil => rfl
      | cons x xs => simp at hl
  | cons r rest ih =>
    constructor
    · rintro ⟨e, he⟩
      cases r with
      | error e2 => exact ⟨e2, rfl⟩
      | ok x =>
        rcases List.mem_cons.mp he with h | h
        · exact absurd h (by simp)
        · rcases ih.1 ⟨e, h⟩ with ⟨e2, h2⟩
          exact ⟨e2, by simp [fetch_and_parse_csv, h2]⟩
    · intro l hl
      cases l with
      | nil => simp at hl
      | cons x xs =>
        simp only [List.map_cons, List.cons.injEq] at hl
        rcases hl with ⟨hr, hrest⟩
        subst hr
        have h2 := ih.2 xs hrest
        simp [fetch_and_parse_csv, h2]

/-- Witness for claim C8: a batch with one bad row fails wholesale, and an
all-good batch returns every record in order. -/
theorem fetch_and_parse_csv_fail_fast_witness :
    (∃ e, fetch_and_parse_csv [Except.ok sampleRecord, Except.error "bad row"] =
      Except.error e) ∧
    fetch_and_parse_csv [Except.ok sampleRecord] = Except.ok [sampleRecord] :=
  ⟨(fetch_and_parse_csv_fail_fast _).1 ⟨"bad row", by simp⟩,
   (fetch_and_parse_csv_fail_fast _).2 [sampleRecord] rfl⟩

/-- Claim C7: party-preference normalization of the text read back from
the store is total and never an error — a Democratic marker classifies as
Democrat, a Republican marker (without a Democratic one) as Republican,
and anything else falls back to NotAffiliated via `unwrap_or`. -/
theorem party_inference_total (s : String) :
    (containsSub "democrat".data (lowerChars s) = true →
      parsePartyText s = PartyPreference.Democrat) ∧
    (containsSub "democrat".data (lowerChars s) = false →
      containsSub "republican".data (lowerChars s) = true →
      parsePartyText s = PartyPreference.Republican) ∧
    (containsSub "democrat".data (lowerChars s) = false →
      containsSub "republican".data (lowerChars s) = false →
      parsePartyText s = PartyPreference.NotAffiliated) := by
  refine ⟨fun h1 => ?_, fun h1 h2 => ?_, fun h1 h2 => ?_⟩ <;>
    simp [parsePartyText, PartyPreference.from_str, h1]
  · simp [h2]
  · simp [h2]

/-- Witness for claim C7 at the spec's three inputs. -/
theorem party_inference_total_witness :
    parsePartyText "Prefers Democratic Party" = PartyPreference.Democrat ∧
    parsePartyText "Prefers Republican Party" = PartyPreference.Republican ∧
    parsePartyText "Independent" = PartyPreference.NotAffiliated :=
  ⟨(party_inference_total _).1 (by decide),
   (party_inference_total _).2.1 (by decide) (by decide),
   (party_inference_total _).2.2 (by decide) (by decide)⟩

/-- Claim C4 (counterexample): on the store with no snapshot,
`get_latest_data` returns a row-count error — its `Result<Vec<Contest>>`
type has no `None` case, and the empty store is not reported as empty
data. -/
theorem latest_empty_store_counterexample :
    get_latest_data emptyDb = Except.error DbErr.rowCount := rfl

/-- Claim C4 (amended): when the store contains no snapshot,
`get_latest_data` (backed by `query_one`) returns an error, while the
fingerprint query `get_latest_total_votes` (backed by `query_opt`) is the
call that returns an empty `None` result. -/
theorem latest_empty_store_errors (db : DbState) (h : db.updates = []) :
    get_latest_data db = Except.error DbErr.rowCount ∧
    get_latest_total_votes db = Except.ok none := by
  constructor
  · simp [get_latest_data, h, maxTimestampRow, query_one]
  · simp [get_latest_total_votes, h, maxTimestampRow]

/-- Witness for the amended claim C4 on the concrete empty store. -/
theorem latest_empty_store_errors_witness :
    get_latest_data emptyDb = Except.error DbErr.rowCount ∧
    get_latest_total_votes emptyDb = Except.ok none :=
  latest_empty_store_errors emptyDb rfl

/-- Claim C5 (counterexample): with the store holding exactly one snapshot
at timestamp 5, `get_data_at_timestamp` at 7 returns a row-count error —
not an empty result, and not the nearest-preceding snapshot. -/
theorem at_timestamp_counterexample :
    get_data_at_timestamp oneUpdateDb 7 = Except.error DbErr.rowCount := rfl

/-- Claim C5 (amended): `get_data_at_timestamp` only ever selects a
snapshot whose stored timestamp exactly equals the argument; when no
snapshot (or more than one) has that timestamp, it returns an error
rather than an empty result. -/
theorem at_timestamp_exact (db : DbState) (t : Int) :
    (db.updates.filter (fun r => r.timestamp == t) = [] →
      get_data_at_timestamp db t = Except.error DbErr.rowCount) ∧
    (∀ u, db.updates.filter (fun r => r.timestamp == t) = [u] →
      u.timestamp = t ∧ get_data_at_timestamp db t = Except.ok (joinContests db u.id)) := by
  constructor
  · intro h
    simp [get_data_at_timestamp, h, query_one]
  · intro u h
    constructor
    · have hu : u ∈ db.updates.filter (fun r => r.timestamp == t) := by
        rw [h]; exact List.mem_singleton_self u
      have := (List.mem_filter.mp hu).2
      simpa using this
    · simp [get_data_at_timestamp, h, query_one]

/-- Witness for the amended claim C5: the exact-match timestamp succeeds
with the joined tree, a non-matching one errors. -/
theorem at_timestamp_exact_witness :
    get_data_at_timestamp oneUpdateDb 5 = Except.ok (joinContests oneUpdateDb 1) ∧
    get_data_at_timestamp oneUpdateDb 6 = Except.error DbErr.rowCount :=
  ⟨((at_timestamp_exact oneUpdateDb 5).2 ⟨1, 5, 100⟩ (by decide)).2,
   (at_timestamp_exact oneUpdateDb 6).1 (by decide)⟩

/-- Inserting into the descending-sorted list adds exactly one element. -/
theorem length_insertByVotes (x : ElectionData) (l : List ElectionData) :
    (insertByVotes x l).length = l.length + 1 := by
  induction l with
  | nil => rfl
  | cons y ys ih =>
    by_cases h : votesDescLe x y <;> simp [insertByVotes, h, ih]

/-- The sort of src/main.rs lines 358-363 preserves length. -/
theorem length_sortByVotesDesc (l : List ElectionData) :
    (sortByVotesDesc l).length = l.length := by
  induction l with
  | nil => rfl
  | cons x xs ih => simp [sortByVotesDesc, length_insertByVotes, ih]

/-- Claim C10: the unchecked `contest_data[0]` read inside
`contest_details` is always in bounds along the render path —
`get_contest_data_html` never reaches the out-of-bounds marker, because
the empty filter result short-circuits to the
"No data available for this contest." response. -/
theorem contest_details_index_safe (allRes : Except ApiErr (List ElectionData))
    (contest_id : Int) :
    get_contest_data_html allRes contest_id ≠ HtmlResponse.indexPanic ∧
    (∀ l, allRes = Except.ok l →
      l.filter (fun r => r.gems_contest_id == contest_id) = [] →
      get_contest_data_html allRes contest_id = HtmlResponse.noData) := by
  constructor
  · cases allRes with
    | error e => simp [get_contest_data_html]
    | ok all_data =>
      simp only [get_contest_data_html]
      cases hf : all_data.filter (fun r => r.gems_contest_id == contest_id) with
      | nil => simp
      | cons a as =>
        have hne : sortByVotesDesc (a :: as) ≠ [] := by
          intro hs
          have hlen := length_sortByVotesDesc (a :: as)
          rw [hs] at hlen
          simp at hlen
        cases hs : sortByVotesDesc (a :: as) with
        | nil => exact absurd hs hne
        | cons b bs => simp [hs, contest_details]
  · intro l hl hfil
    subst hl
    simp [get_contest_data_html, hfil]

/-- Witness for claim C10 discharging its hypotheses on concrete data: an
empty store yields the no-data response. -/
theorem contest_details_index_safe_witness :
    get_contest_data_html (Except.ok ([] : List ElectionData)) 0 = HtmlResponse.noData :=
  (contest_details_index_safe (Except.ok []) 0).2 [] rfl rfl

/-- The candidate-insert loop either faults (aborting the transaction) or
adds exactly the fault-free candidate rows to the pending state. -/
theorem insertCandidates_cases (oracle : Nat → Bool) (cands : List Candidate) :
    ∀ (k : Nat) (p : DbState) (cid uid : Int),
      insertCandidates oracle k p cands cid uid = Except.error DbErr.fault ∨
      ∃ k2, insertCandidates oracle k p cands cid uid =
        Except.ok (applyCandidateRows p cands cid uid, k2) := by
  induction cands with
  | nil => exact fun k p cid uid => Or.inr ⟨k, rfl⟩
  | cons cand rest ih =>
    intro k p cid uid
    by_cases h : oracle k
    · left
      simp [insertCandidates, h]
    · have hrec := ih (k + 1) (insertCandidateRow p cand cid uid).1 cid uid
      simpa [insertCandidates, h, applyCandidateRows] using hrec

/-- The per-contest loop either faults or adds exactly the fault-free
district, contest and candidate rows of every listed contest. -/
theorem insertContests_cases (oracle : Nat → Bool) (cs : List Contest) :
    ∀ (k : Nat) (p : DbState) (uid : Int),
      insertContests oracle k p cs uid = Except.error DbErr.fault ∨
      ∃ k2, insertContests oracle k p cs uid =
        Except.ok (applyContestRows p cs uid, k2) := by
  induction cs with
  | nil => exact fun k p uid => Or.inr ⟨k, rfl⟩
  | cons c rest ih =>
    intro k p uid
    by_cases h0 : oracle k
    · left
      simp [insertContests, h0]
    · by_cases h1 : oracle (k + 1)
      · left
        simp [insertContests, h0, h1]
      · rcases insertCandidates_cases oracle c.candidates (k + 2)
            (insertContestRow (insertDistrictRow p c.district uid).1 c
              (insertDistrictRow p c.district uid).2 uid) ((c.id : Int)) uid with
          hc | ⟨k3, hc⟩
        · left
          simp [insertContests, h0, h1, hc]
        · rcases ih k3
              (applyCandidateRows
                (insertContestRow (insertDistrictRow p c.district uid).1 c
                  (insertDistrictRow p c.district uid).2 uid)
                c.candidates ((c.id : Int)) uid) uid with hr | ⟨k4, hr⟩
          · left
            simp [insertContests, h0, h1, hc, hr]
          · right
            exact ⟨k4, by simp [insertContests, h0, h1, hc, hr, applyContestRows]⟩

/-- Shape of the fault-free candidate inserts: the other tables are
untouched and the candidate count grows by the number of candidates. -/
theorem applyCandidateRows_shape (cands : List Candidate) :
    ∀ (p : DbState) (cid uid : Int),
      (applyCandidateRows p cands cid uid).updates = p.updates ∧
      (applyCandidateRows p cands cid uid).districts = p.districts ∧
      (applyCandidateRows p cands cid uid).contests = p.contests ∧
      (applyCandidateRows p cands cid uid).candidates.length =
        p.candidates.length + cands.length := by
  induction cands with
  | nil => exact fun p cid uid => ⟨rfl, rfl, rfl, rfl⟩
  | cons cand rest ih =>
    intro p cid uid
    obtain ⟨hu, hd, hc, hl⟩ := ih (insertCandidateRow p cand cid uid).1 cid uid
    refine ⟨?_, ?_, ?_, ?_⟩
    · rw [show applyCandidateRows p (cand :: rest) cid uid =
          applyCandidateRows (insertCandidateRow p cand cid uid).1 rest cid uid from rfl,
        hu]
      rfl
    · rw [show applyCandidateRows p (cand :: rest) cid uid =
          applyCandidateRows (insertCandidateRow p cand cid uid).1 rest cid uid from rfl,
        hd]
      rfl
    · rw [show applyCandidateRows p (cand :: rest) cid uid =
          applyCandidateRows (insertCandidateRow p cand cid uid).1 rest cid uid from rfl,
        hc]
      rfl
    · rw [show applyCandidateRows p (cand :: rest) cid uid =
          applyCandidateRows (insertCandidateRow p cand cid uid).1 rest cid uid from rfl,
        hl]
      simp [insertCandidateRow]
      omega

/-- Shape of the fault-free per-contest inserts: the updates table is
untouched, and the district/contest/candidate tables grow by exactly one
row per contest, one row per contest, and one row per candidate. -/
theorem applyContestRows_shape (cs : List Contest) :
    ∀ (p : DbState) (uid : Int),
      (applyContestRows p cs uid).updates = p.updates ∧
      (applyContestRows p cs uid).districts.length = p.districts.length + cs.length ∧
      (applyContestRows p cs uid).contests.length = p.contests.length + cs.length ∧
      (applyContestRows p cs uid).candidates.length =
        p.candidates.length + (cs.map fun c => c.candidates.length).sum := by
  induction cs with
  | nil => exact fun p uid => ⟨rfl, by simp [applyContestRows], by simp [applyContestRows], by simp [applyContestRows]⟩
  | cons c rest ih =>
    intro p uid
    obtain ⟨cu, cd, cc, cl⟩ := applyCandidateRows_shape c.candidates
      (insertContestRow (insertDistrictRow p c.district uid).1 c
        (insertDistrictRow p c.district uid).2 uid)
      ((c.id : Int)) uid
    obtain ⟨hu, hd, hc, hl⟩ := ih
      (applyCandidateRows
        (insertContestRow (insertDistrictRow p c.district uid).1 c
          (insertDistrictRow p c.district uid).2 uid)
        c.candidates ((c.id : Int)) uid) uid
    have hstep : applyContestRows p (c :: rest) uid =
        applyContestRows
          (applyCandidateRows
            (insertContestRow (insertDistrictRow p c.district uid).1 c
              (insertDistrictRow p c.district uid).2 uid)
            c.candidates ((c.id : Int)) uid) rest uid := rfl
    refine ⟨?_, ?_, ?_, ?_⟩
    · rw [hstep, hu, cu]
      rfl
    · rw [hstep, hd, cd]
      simp [insertContestRow, insertDistrictRow]
      omega
    · rw [hstep, hc, cc]
      simp [insertContestRow, insertDistrictRow]
      omega
    · rw [hstep, hl, cl]
      simp [insertContestRow, insertDistrictRow]
      omega

/-- Claim C3: `log_update` is atomic.  For every input tree and every
fault pattern over the storage operations, either the call succeeds and
the visible state is exactly the fault-free insertion of the whole tree —
the snapshot row plus one district row per contest, one contest row per
contest and one candidate row per candidate — or some operation faulted
before commit, the call reports the failure, the visible state is exactly
the pre-call state, and `get_latest_data` observes nothing new. -/
theorem log_update_atomic (oracle : Nat → Bool) (now : Int) (db : DbState)
    (cs : List Contest) (tv : Int) :
    ((log_update oracle now db cs tv).2 = Except.ok () ∧
     (log_update oracle now db cs tv).1 = applyTree db now cs tv ∧
     (applyTree db now cs tv).updates = db.updates ++ [⟨db.nextUpdateId, now, tv⟩] ∧
     (applyTree db now cs tv).districts.length = db.districts.length + cs.length ∧
     (applyTree db now cs tv).contests.length = db.contests.length + cs.length ∧
     (applyTree db now cs tv).candidates.length =
       db.candidates.length + (cs.map fun c => c.candidates.length).sum) ∨
    ((log_update oracle now db cs tv).2 = Except.error DbErr.fault ∧
     (log_update oracle now db cs tv).1 = db ∧
     get_latest_data (log_update oracle now db cs tv).1 = get_latest_data db) := by
  obtain ⟨su, sd, sc, sl⟩ := applyContestRows_shape cs (insertUpdateRow db now tv).1
    (insertUpdateRow db now tv).2
  have hshape : (applyTree db now cs tv).updates =
        db.updates ++ [⟨db.nextUpdateId, now, tv⟩] ∧
      (applyTree db now cs tv).districts.length = db.districts.length + cs.length ∧
      (applyTree db now cs tv).contests.length = db.contests.length + cs.length ∧
      (applyTree db now cs tv).candidates.length =
        db.candidates.length + (cs.map fun c => c.candidates.length).sum := by
    refine ⟨?_, ?_, ?_, ?_⟩
    · rw [show applyTree db now cs tv =
          applyContestRows (insertUpdateRow db now tv).1 cs
            (insertUpdateRow db now tv).2 from rfl, su]
      rfl
    · rw [show applyTree db now cs tv =
          applyContestRows (insertUpdateRow db now tv).1 cs
            (insertUpdateRow db now tv).2 from rfl, sd]
      rfl
    · rw [show applyTree db now cs tv =
          applyContestRows (insertUpdateRow db now tv).1 cs
            (insertUpdateRow db now tv).2 from rfl, sc]
      rfl
    · rw [show applyTree db now cs tv =
          applyContestRows (insertUpdateRow db now tv).1 cs
            (insertUpdateRow db now tv).2 from rfl, sl]
      rfl
  by_cases h0 : oracle 0
  · right
    simp [log_update, h0]
  by_cases h1 : oracle 1
  · right
    simp [log_update, h0, h1]
  rcases insertContests_cases oracle cs 2 (insertUpdateRow db now tv).1
      (insertUpdateRow db now tv).2 with hc | ⟨k2, hc⟩
  · right
    simp [log_update, h0, h1, hc]
  by_cases h2 : oracle k2
  · right
    simp [log_update, h0, h1, hc, h2]
  · left
    refine ⟨?_, ?_, hshape.1, hshape.2.1, hshape.2.2.1, hshape.2.2.2⟩
    · simp [log_update, h0, h1, hc, h2]
    · simp [log_update, h0, h1, hc, h2, applyTree]
